import Mathlib

/-!
Shallow embedding of the connection lifecycle core of the
terraform-provider-uptimekuma repository: the session factory with retry and
backoff (`internal/client/client.go`: `New`, `newClientDirect`,
`Client.Disconnect`) and the shared session registry
(`internal/client/pool.go`: `Pool.GetOrCreate`, `Pool.configMatches`,
`Pool.Release`, `Pool.Close`).

Modelling conventions:
* The opaque session handle (`kuma.Client` in Go) is a type parameter `S`;
  the underlying transport connect `kuma.New` is a stub
  `conn : Nat → Except GoError S` giving the outcome of the n-th connect call
  (0-indexed), and transport disconnect is a stub `disc : S → Option GoError`.
* Go errors built with `fmt.Errorf` are modelled as a tree `GoError`: a leaf
  message, or a wrapping message around a cause (the `%w` verb).
* Durations are exact rationals measured in seconds (`baseDelay = 5`,
  cap `30`); the jitter factor drawn by `rand.Float64()*0.4 + 0.8` is an
  arbitrary sequence `jit : Nat → ℚ`, one draw per executed sleep.
* The functions are instrumented to also return the number of connect
  attempts made and the list of sleep durations performed, so that claims
  about "exactly k attempts / k sleeps" are statable.
-/

/-- Go error values as produced by `fmt.Errorf`: either a plain message or a
message wrapping a cause (the `%w` verb). -/
inductive GoError where
  | base (msg : String)
  | wrap (msg : String) (cause : GoError)
deriving DecidableEq

/-- The cause chain of a wrapped error contains a target error
(Go `errors.Is` reachability). -/
def GoError.containsErr : GoError → GoError → Bool
  | .base m, t => GoError.base m == t
  | .wrap m c, t => GoError.wrap m c == t || c.containsErr t

/-- `Config` from client.go: endpoint, credentials and the pooling flag. -/
structure Config where
  baseURL : String
  username : String
  password : String
  enableConnectionPool : Bool
deriving DecidableEq

/-- `Client` from client.go: wraps the (nil-able) session handle `Kuma`. -/
structure Client (S : Type) where
  Kuma : Option S
deriving DecidableEq

/-- The post-jitter cap of client.go: `if sleepDuration > 30*time.Second
then 30*time.Second`. Durations are rationals in seconds. -/
def capSleep (d : ℚ) : ℚ :=
  if d > 30 then 30 else d

/-- One backoff-with-jitter sleep of client.go before retry `i`:
`backoff := baseDelay * 2^i`, jittered by the factor `jit i`, then capped. -/
def backoffSleep (baseDelay : ℚ) (jit : Nat → ℚ) (i : Nat) : ℚ :=
  capSleep (baseDelay * 2 ^ i * jit i)

/-- The retry loop of `newClientDirect`, at loop index `i` with
`fuel = maxRetries - i` remaining retries (so `fuel = 0` iff
`i == maxRetries`, the `break` condition). Returns the raw loop outcome,
the number of connect attempts made, and the sleeps performed. -/
def newClientLoop {S : Type} (conn : Nat → Except GoError S) (jit : Nat → ℚ)
    (baseDelay : ℚ) (i : Nat) (fuel : Nat) : Except GoError S × Nat × List ℚ :=
  match conn i, fuel with
  | .ok s, _ => (.ok s, 1, [])
  | .error e, 0 => (.error e, 1, [])
  | .error _, f + 1 =>
    let rest := newClientLoop conn jit baseDelay (i + 1) f
    (rest.1, rest.2.1 + 1, backoffSleep baseDelay jit i :: rest.2.2)

/-- Outcome of a factory call: the result, the number of underlying connect
attempts, and the list of sleep durations. -/
structure FactoryResult (S : Type) where
  result : Except GoError (Client S)
  attempts : Nat
  sleeps : List ℚ

/-- `newClientDirect` generalized over the two local constants of client.go
(`maxRetries := 5`, `baseDelay := 5 * time.Second`): run the retry loop from
`i = 0`; on success wrap the handle in a `Client`; on exhaustion wrap the
last error in the terminal message carrying the attempt count. -/
def newClientDirectGen {S : Type} (maxRetries : Nat) (baseDelay : ℚ)
    (conn : Nat → Except GoError S) (jit : Nat → ℚ) : FactoryResult S :=
  let r := newClientLoop conn jit baseDelay 0 maxRetries
  match r.1 with
  | .ok s => ⟨.ok ⟨some s⟩, r.2.1, r.2.2⟩
  | .error e =>
    ⟨.error (.wrap ("failed to connect to Uptime Kuma after " ++
        toString (maxRetries + 1) ++ " attempts") e), r.2.1, r.2.2⟩

/-- `newClientDirect` from client.go with its hardcoded constants:
`maxRetries = 5`, `baseDelay = 5` seconds. -/
def newClientDirect {S : Type} (conn : Nat → Except GoError S)
    (jit : Nat → ℚ) : FactoryResult S :=
  newClientDirectGen 5 5 conn jit

/-- `Client.Disconnect` from client.go: call the transport disconnect only
when the handle is non-nil. Also returns how many transport disconnect
calls were made. -/
def Client.Disconnect {S : Type} (c : Client S) (disc : S → Option GoError) :
    Option GoError × Nat :=
  match c.Kuma with
  | some s => (disc s, 1)
  | none => (none, 0)

/-- The mutable state of the single-slot `Pool` of pool.go: the cached
client, the config it was created with, and the reference counter (a Go
`int`, hence modelled as `Int`). The mutex only serializes operations and
has no sequential content. -/
structure Pool (S : Type) where
  client : Option (Client S)
  config : Option Config
  refs : Int

/-- `Pool.configMatches` from pool.go: `false` when no config is stored,
otherwise exact equality of endpoint, username and password (the pooling
flag is not compared). -/
def Pool.configMatches {S : Type} (p : Pool S) (config : Config) : Bool :=
  match p.config with
  | none => false
  | some pc =>
    pc.baseURL == config.baseURL && pc.username == config.username &&
      pc.password == config.password

/-- Outcome of a pool operation that may create a session: the returned
result, the pool state afterwards, and the instrumentation of the factory
call it may have delegated to (connect attempts, sleeps). -/
structure OpResult (S : Type) where
  result : Except GoError (Client S)
  state : Pool S
  attempts : Nat
  sleeps : List ℚ

/-- `Pool.GetOrCreate` from pool.go. If a client is held: on config match
increment the refcount and return it, otherwise fail with the mismatch
error naming both endpoints and leave the state alone. If the slot is
empty: delegate to `newClientDirect`; on failure wrap its error and leave
the slot empty, on success populate the slot with refcount 1.
(When the slot holds a client but no config — unreachable from the real
state transitions — the Go code would dereference a nil config in the
error message; the model renders that endpoint as the empty string.) -/
def Pool.GetOrCreate {S : Type} (p : Pool S) (config : Config)
    (conn : Nat → Except GoError S) (jit : Nat → ℚ) : OpResult S :=
  match p.client with
  | some cl =>
    if p.configMatches config then
      ⟨.ok cl, { p with refs := p.refs + 1 }, 0, []⟩
    else
      ⟨.error (.base ("connection pool config mismatch: existing connection uses different credentials (URL: " ++
          (match p.config with | some pc => pc.baseURL | none => "") ++
          " vs " ++ config.baseURL ++ ")")), p, 0, []⟩
  | none =>
    let f := newClientDirect conn jit
    match f.result with
    | .error e =>
      ⟨.error (.wrap "failed to create pooled connection" e), p,
        f.attempts, f.sleeps⟩
    | .ok cl => ⟨.ok cl, ⟨some cl, some config, 1⟩, f.attempts, f.sleeps⟩

/-- `Pool.Release` from pool.go: decrement the refcount only when it is
positive. Takes no disconnect stub: releasing structurally cannot touch the
underlying session. -/
def Pool.Release {S : Type} (p : Pool S) : Pool S :=
  if p.refs > 0 then { p with refs := p.refs - 1 } else p

/-- Outcome of `Pool.Close`: the returned error, the pool state afterwards,
and how many transport disconnect calls were made. -/
structure CloseResult (S : Type) where
  err : Option GoError
  state : Pool S
  discCalls : Nat

/-- `Pool.Close` from pool.go: if a client is held, disconnect it and reset
every field of the slot, returning the disconnect error; otherwise a no-op
returning nil. -/
def Pool.Close {S : Type} (p : Pool S) (disc : S → Option GoError) :
    CloseResult S :=
  match p.client with
  | some cl =>
    let d := cl.Disconnect disc
    ⟨d.1, ⟨none, none, 0⟩, d.2⟩
  | none => ⟨none, p, 0⟩

/-- The pooling decision of `New` in client.go: the explicit config flag,
and when it is unset, the fallback comparison of the environment variable
`UPTIMEKUMA_ENABLE_CONNECTION_POOL` against the exact string "true". -/
def poolEnabledOf (config : Config) (env : String) : Bool :=
  if config.enableConnectionPool then true else env == "true"

/-- Outcome of `New`: the result, the pool state afterwards, the factory
instrumentation, and which path (pooled or direct) was taken. -/
structure NewResult (S : Type) where
  result : Except GoError (Client S)
  state : Pool S
  attempts : Nat
  sleeps : List ℚ
  usedPool : Bool

/-- `New` from client.go: reject an empty base URL outright, then dispatch
to the pool or to `newClientDirect` according to `poolEnabledOf`. `env` is
the value of `UPTIMEKUMA_ENABLE_CONNECTION_POOL` and `p` the global pool's
current state. -/
def New {S : Type} (config : Config) (env : String) (p : Pool S)
    (conn : Nat → Except GoError S) (jit : Nat → ℚ) : NewResult S :=
  if config.baseURL == "" then
    ⟨.error (.base "base URL is required"), p, 0, [], false⟩
  else if poolEnabledOf config env then
    let r := p.GetOrCreate config conn jit
    ⟨r.result, r.state, r.attempts, r.sleeps, true⟩
  else
    let f := newClientDirect conn jit
    ⟨f.result, p, f.attempts, f.sleeps, false⟩

/-- The states of the registry reachable from the empty initial slot by its
three operations, with arbitrary configs and stubs at each step. -/
inductive Pool.Reachable {S : Type} : Pool S → Prop
  | init : Pool.Reachable ⟨none, none, 0⟩
  | acquire (p : Pool S) (c : Config) (conn : Nat → Except GoError S)
      (jit : Nat → ℚ) : Pool.Reachable p →
      Pool.Reachable (p.GetOrCreate c conn jit).state
  | release (p : Pool S) : Pool.Reachable p → Pool.Reachable p.Release
  | close (p : Pool S) (disc : S → Option GoError) : Pool.Reachable p →
      Pool.Reachable (p.Close disc).state

/-- Unfolding: a successful connect ends the loop at once. -/
lemma newClientLoop_ok {S : Type} {conn : Nat → Except GoError S}
    {jit : Nat → ℚ} {b : ℚ} {i : Nat} {s : S} (fuel : Nat)
    (h : conn i = .ok s) :
    newClientLoop conn jit b i fuel = (.ok s, 1, []) := by
  cases fuel <;> simp only [newClientLoop.eq_def, h]

/-- Unfolding: a failed connect with no retries left ends the loop with the
raw error and no sleep. -/
lemma newClientLoop_err_zero {S : Type} {conn : Nat → Except GoError S}
    {jit : Nat → ℚ} {b : ℚ} {i : Nat} {e : GoError}
    (h : conn i = .error e) :
    newClientLoop conn jit b i 0 = (.error e, 1, []) := by
  simp only [newClientLoop.eq_def, h]

/-- Unfolding: a failed connect with retries left sleeps once and recurses. -/
lemma newClientLoop_err_succ {S : Type} {conn : Nat → Except GoError S}
    {jit : Nat → ℚ} {b : ℚ} {i : Nat} {e : GoError} (f : Nat)
    (h : conn i = .error e) :
    newClientLoop conn jit b i (f + 1) =
      ((newClientLoop conn jit b (i + 1) f).1,
       (newClientLoop conn jit b (i + 1) f).2.1 + 1,
       backoffSleep b jit i :: (newClientLoop conn jit b (i + 1) f).2.2) := by
  conv_lhs => rw [newClientLoop.eq_def]
  rw [h]

/-- Shift of the sleep schedule by one loop index. -/
lemma backoffSleep_shift (b : ℚ) (jit : Nat → ℚ) (i k : Nat) :
    (List.range (k + 1)).map (fun t => backoffSleep b jit (i + t)) =
      backoffSleep b jit i ::
        (List.range k).map (fun t => backoffSleep b jit (i + 1 + t)) := by
  rw [List.range_succ_eq_map, List.map_cons, List.map_map]
  have hfun : ((fun t => backoffSleep b jit (i + t)) ∘ Nat.succ) =
      fun t => backoffSleep b jit (i + 1 + t) := by
    funext t
    simp only [Function.comp]
    congr 1
    omega
  rw [hfun]
  simp

/-- The loop on a stub that fails exactly `k ≤ fuel` times from index `i`
and then succeeds: it returns the session after `k + 1` attempts, having
slept the backoff schedule for indices `i, i+1, …, i+k-1`. -/
lemma newClientLoop_spec_ok {S : Type} (conn : Nat → Except GoError S)
    (jit : Nat → ℚ) (b : ℚ) (s : S) :
    ∀ (k i fuel : Nat), k ≤ fuel →
    (∀ j, j < k → ∃ e, conn (i + j) = .error e) →
    conn (i + k) = .ok s →
    newClientLoop conn jit b i fuel =
      (.ok s, k + 1, (List.range k).map (fun t => backoffSleep b jit (i + t)))
  | 0, i, fuel, _, _, hok => by
    rw [newClientLoop_ok fuel (by simpa using hok)]
    simp
  | k + 1, i, fuel, hk, herr, hok => by
    obtain ⟨e, he⟩ := herr 0 (Nat.succ_pos k)
    obtain ⟨f, rfl⟩ : ∃ f, fuel = f + 1 :=
      ⟨fuel - 1, by omega⟩
    rw [newClientLoop_err_succ f (by simpa using he)]
    rw [newClientLoop_spec_ok conn jit b s k (i + 1) f (by omega)
      (fun j hj => by
        obtain ⟨e', he'⟩ := herr (j + 1) (by omega)
        exact ⟨e', by rw [← he']; congr 1; omega⟩)
      (by rw [← hok]; congr 1; omega)]
    rw [backoffSleep_shift]

/-- The loop on a stub that always fails: it exhausts the fuel, makes
`fuel + 1` attempts, sleeps the backoff schedule `fuel` times, and returns
the error of the final attempt (at index `i + fuel`). -/
lemma newClientLoop_spec_err {S : Type} (conn : Nat → Except GoError S)
    (errF : Nat → GoError) (jit : Nat → ℚ) (b : ℚ)
    (h : ∀ j, conn j = .error (errF j)) :
    ∀ (fuel i : Nat),
    newClientLoop conn jit b i fuel =
      (.error (errF (i + fuel)), fuel + 1,
       (List.range fuel).map (fun t => backoffSleep b jit (i + t)))
  | 0, i => by
    rw [newClientLoop_err_zero (h i)]
    simp
  | f + 1, i => by
    rw [newClientLoop_err_succ f (h i)]
    rw [newClientLoop_spec_err conn errF jit b h f (i + 1)]
    rw [backoffSleep_shift]
    exact congrArg (fun n => (Except.error (errF n), f + 1 + 1, _)) (by omega)

/-- The capped backoff of client.go is the `min` of the claims' phrasing. -/
lemma capSleep_eq_min (d : ℚ) : capSleep d = min 30 d := by
  rw [capSleep, min_def]
  split_ifs <;> linarith

/-- The loop always makes at least one connect attempt. -/
lemma newClientLoop_attempts_pos {S : Type} (conn : Nat → Except GoError S)
    (jit : Nat → ℚ) (b : ℚ) (i fuel : Nat) :
    1 ≤ (newClientLoop conn jit b i fuel).2.1 := by
  rcases hc : conn i with e | s
  · cases fuel with
    | zero => rw [newClientLoop_err_zero hc]
    | succ f =>
      rw [newClientLoop_err_succ f hc]
      exact Nat.succ_le_succ (Nat.zero_le _)
  · rw [newClientLoop_ok fuel hc]

/-- The factory's attempt count is the loop's attempt count. -/
lemma newClientDirectGen_attempts {S : Type} (N : Nat) (b : ℚ)
    (conn : Nat → Except GoError S) (jit : Nat → ℚ) :
    (newClientDirectGen N b conn jit).attempts =
      (newClientLoop conn jit b 0 N).2.1 := by
  simp only [newClientDirectGen]
  split <;> rfl

/-- The factory always makes at least one connect attempt. -/
lemma newClientDirectGen_attempts_pos {S : Type} (N : Nat) (b : ℚ)
    (conn : Nat → Except GoError S) (jit : Nat → ℚ) :
    1 ≤ (newClientDirectGen N b conn jit).attempts := by
  rw [newClientDirectGen_attempts]
  exact newClientLoop_attempts_pos conn jit b 0 N

/-- Every error is in its own cause chain. -/
lemma GoError.containsErr_self (e : GoError) : e.containsErr e = true := by
  cases e <;> simp [GoError.containsErr]

/-- C1: for every retry budget `N` (generalizing the constant `maxRetries
= 5` of `newClientDirect = newClientDirectGen 5 5`), any base delay, and a
connect stub that fails exactly `k ≤ N` times and then succeeds with
session `s`, the factory returns the client holding `s`, makes exactly
`k + 1` connect attempts, and sleeps exactly `k` times, the sleep before
retry `i` (0-indexed) being `min 30 (baseDelay * 2 ^ i * jit i)` seconds,
where the jitter factors lie in `[0.8, 1.2]`; in particular every sleep is
at most 30 seconds. -/
theorem claim_C1_factory_retries_then_succeeds {S : Type} (N : Nat) (b : ℚ)
    (conn : Nat → Except GoError S) (jit : Nat → ℚ) (k : Nat) (s : S)
    (hk : k ≤ N)
    (hfail : ∀ j, j < k → ∃ e, conn j = .error e)
    (hok : conn k = .ok s)
    (_hjit : ∀ i, (0.8 : ℚ) ≤ jit i ∧ jit i ≤ 1.2) :
    (newClientDirectGen N b conn jit).result = .ok ⟨some s⟩ ∧
    (newClientDirectGen N b conn jit).attempts = k + 1 ∧
    (newClientDirectGen N b conn jit).sleeps =
      (List.range k).map (fun i => min 30 (b * 2 ^ i * jit i)) ∧
    (∀ d ∈ (newClientDirectGen N b conn jit).sleeps, d ≤ 30) := by
  have hloop := newClientLoop_spec_ok conn jit b s k 0 N hk
    (fun j hj => by simpa using hfail j hj) (by simpa using hok)
  have hsched : (fun t => backoffSleep b jit (0 + t)) =
      fun i => min 30 (b * 2 ^ i * jit i) := by
    funext t
    simp [backoffSleep, capSleep_eq_min]
  have hgen : newClientDirectGen N b conn jit =
      ⟨.ok ⟨some s⟩, k + 1,
        (List.range k).map (fun i => min 30 (b * 2 ^ i * jit i))⟩ := by
    simp only [newClientDirectGen, hloop, hsched]
  rw [hgen]
  refine ⟨rfl, rfl, rfl, ?_⟩
  intro d hd
  simp only [List.mem_map, List.mem_range] at hd
  obtain ⟨t, _, rfl⟩ := hd
  exact min_le_left _ _

/-- C1 at a concrete input: budget 5, base delay 5 s, a stub failing twice
then yielding session 7, unit jitter: success with 3 attempts and the two
sleeps 5 s and 10 s. -/
theorem claim_C1_witness :
    (newClientDirectGen 5 5
        (fun i => if i < 2 then Except.error (GoError.base "dial fail")
          else Except.ok (7 : Nat))
        (fun _ => 1)).result = .ok ⟨some 7⟩ ∧
    (newClientDirectGen 5 5
        (fun i => if i < 2 then Except.error (GoError.base "dial fail")
          else Except.ok (7 : Nat))
        (fun _ => 1)).attempts = 2 + 1 ∧
    (newClientDirectGen 5 5
        (fun i => if i < 2 then Except.error (GoError.base "dial fail")
          else Except.ok (7 : Nat))
        (fun _ => 1)).sleeps =
      (List.range 2).map (fun i => min 30 ((5 : ℚ) * 2 ^ i * 1)) ∧
    (∀ d ∈ (newClientDirectGen 5 5
        (fun i => if i < 2 then Except.error (GoError.base "dial fail")
          else Except.ok (7 : Nat))
        (fun _ => 1)).sleeps, d ≤ 30) :=
  claim_C1_factory_retries_then_succeeds 5 5 _ _ 2 7 (by norm_num)
    (fun j hj => ⟨GoError.base "dial fail", by simp [hj]⟩)
    (by norm_num)
    (fun i => ⟨by norm_num, by norm_num⟩)

/-- C2: for every retry budget `N` (generalizing `maxRetries = 5` of
`newClientDirect = newClientDirectGen 5 5`) and a connect stub that always
fails, the factory fails after exactly `N + 1` connect attempts and exactly
`N` sleeps (the full backoff schedule, so no sleep follows the final failed
attempt), and the returned error wraps the error of the last attempt
(`errF N` is in its cause chain) under a message carrying the attempt count
`N + 1`. -/
theorem claim_C2_factory_exhaustion {S : Type} (N : Nat) (b : ℚ)
    (conn : Nat → Except GoError S) (jit : Nat → ℚ) (errF : Nat → GoError)
    (hfail : ∀ j, conn j = .error (errF j)) :
    (newClientDirectGen N b conn jit).result =
      .error (GoError.wrap ("failed to connect to Uptime Kuma after " ++
        toString (N + 1) ++ " attempts") (errF N)) ∧
    (newClientDirectGen N b conn jit).attempts = N + 1 ∧
    (newClientDirectGen N b conn jit).sleeps =
      (List.range N).map (fun i => min 30 (b * 2 ^ i * jit i)) ∧
    (newClientDirectGen N b conn jit).sleeps.length = N ∧
    (match (newClientDirectGen N b conn jit).result with
     | .error e => e.containsErr (errF N)
     | .ok _ => false) = true := by
  have hloop := newClientLoop_spec_err conn errF jit b hfail N 0
  simp only [Nat.zero_add] at hloop
  have hsched : (fun t => backoffSleep b jit t) =
      fun i => min 30 (b * 2 ^ i * jit i) := by
    funext t
    simp [backoffSleep, capSleep_eq_min]
  have hgen : newClientDirectGen N b conn jit =
      ⟨.error (GoError.wrap ("failed to connect to Uptime Kuma after " ++
          toString (N + 1) ++ " attempts") (errF N)), N + 1,
        (List.range N).map (fun i => min 30 (b * 2 ^ i * jit i))⟩ := by
    simp only [newClientDirectGen, hloop, hsched]
  rw [hgen]
  refine ⟨rfl, rfl, rfl, by simp, ?_⟩
  simp [GoError.containsErr, GoError.containsErr_self]

/-- C2 at a concrete input: budget 1, base delay 5 s, a stub failing every
attempt with a per-attempt error: exhaustion after 2 attempts and 1 sleep,
the terminal error wrapping the second attempt's error. -/
theorem claim_C2_witness :
    (newClientDirectGen 1 5
        (fun i => (Except.error (GoError.base (toString i)) : Except GoError Nat))
        (fun _ => (1 : ℚ))).result =
      .error (GoError.wrap ("failed to connect to Uptime Kuma after " ++
        toString (1 + 1) ++ " attempts") (GoError.base (toString 1))) ∧
    (newClientDirectGen 1 5
        (fun i => (Except.error (GoError.base (toString i)) : Except GoError Nat))
        (fun _ => (1 : ℚ))).attempts = 1 + 1 ∧
    (newClientDirectGen 1 5
        (fun i => (Except.error (GoError.base (toString i)) : Except GoError Nat))
        (fun _ => (1 : ℚ))).sleeps =
      (List.range 1).map (fun i => min 30 ((5 : ℚ) * 2 ^ i * 1)) ∧
    (newClientDirectGen 1 5
        (fun i => (Except.error (GoError.base (toString i)) : Except GoError Nat))
        (fun _ => (1 : ℚ))).sleeps.length = 1 ∧
    (match (newClientDirectGen 1 5
        (fun i => (Except.error (GoError.base (toString i)) : Except GoError Nat))
        (fun _ => (1 : ℚ))).result with
     | .error e => e.containsErr (GoError.base (toString 1))
     | .ok _ => false) = true :=
  claim_C2_factory_exhaustion 1 5 _ _ (fun i => GoError.base (toString i))
    (fun _ => rfl)

/-- C3: when the pool slot is held and the requested config agrees with the
stored config on endpoint, username and password (the pooling flag is not
compared and may differ), `Pool.GetOrCreate` increments the refcount by
exactly one, returns the very client already held, leaves the stored client
and config untouched, and performs no connect attempt and no sleep. -/
theorem claim_C3_pool_reuse {S : Type} (p : Pool S) (cl : Client S)
    (sc c : Config) (conn : Nat → Except GoError S) (jit : Nat → ℚ)
    (hcl : p.client = some cl) (hsc : p.config = some sc)
    (hurl : sc.baseURL = c.baseURL) (huser : sc.username = c.username)
    (hpass : sc.password = c.password) :
    (p.GetOrCreate c conn jit).result = .ok cl ∧
    (p.GetOrCreate c conn jit).state.refs = p.refs + 1 ∧
    (p.GetOrCreate c conn jit).state.client = p.client ∧
    (p.GetOrCreate c conn jit).state.config = p.config ∧
    (p.GetOrCreate c conn jit).attempts = 0 ∧
    (p.GetOrCreate c conn jit).sleeps = [] := by
  have hm : p.configMatches c = true := by
    simp [Pool.configMatches, hsc, hurl, huser, hpass]
  simp [Pool.GetOrCreate, hcl, hm]

/-- C3 at a concrete input: a held slot with refcount 1 and a request that
matches on the three compared fields but differs on the pooling flag:
the held client 5 is returned, refcount becomes 2, no connect attempt. -/
theorem claim_C3_witness :
    (Pool.GetOrCreate
        (⟨some ⟨some 5⟩, some ⟨"http://a", "u", "p", false⟩, 1⟩ : Pool Nat)
        ⟨"http://a", "u", "p", true⟩
        (fun _ => .error (.base "unused")) (fun _ => 1)).result =
      .ok ⟨some 5⟩ ∧
    (Pool.GetOrCreate
        (⟨some ⟨some 5⟩, some ⟨"http://a", "u", "p", false⟩, 1⟩ : Pool Nat)
        ⟨"http://a", "u", "p", true⟩
        (fun _ => .error (.base "unused")) (fun _ => 1)).state.refs = 1 + 1 ∧
    (Pool.GetOrCreate
        (⟨some ⟨some 5⟩, some ⟨"http://a", "u", "p", false⟩, 1⟩ : Pool Nat)
        ⟨"http://a", "u", "p", true⟩
        (fun _ => .error (.base "unused")) (fun _ => 1)).state.client =
      some ⟨some 5⟩ ∧
    (Pool.GetOrCreate
        (⟨some ⟨some 5⟩, some ⟨"http://a", "u", "p", false⟩, 1⟩ : Pool Nat)
        ⟨"http://a", "u", "p", true⟩
        (fun _ => .error (.base "unused")) (fun _ => 1)).state.config =
      some ⟨"http://a", "u", "p", false⟩ ∧
    (Pool.GetOrCreate
        (⟨some ⟨some 5⟩, some ⟨"http://a", "u", "p", false⟩, 1⟩ : Pool Nat)
        ⟨"http://a", "u", "p", true⟩
        (fun _ => .error (.base "unused")) (fun _ => 1)).attempts = 0 ∧
    (Pool.GetOrCreate
        (⟨some ⟨some 5⟩, some ⟨"http://a", "u", "p", false⟩, 1⟩ : Pool Nat)
        ⟨"http://a", "u", "p", true⟩
        (fun _ => .error (.base "unused")) (fun _ => 1)).sleeps = [] :=
  claim_C3_pool_reuse _ _ _ _ _ _ rfl rfl rfl rfl rfl

/-- C4: when the pool slot is held and the requested config differs from
the stored one on endpoint, username or password, `Pool.GetOrCreate` fails
with the mismatch error whose message carries both the stored and the
requested endpoint, and returns the pool state completely unchanged, with
no connect attempt and no sleep. -/
theorem claim_C4_pool_mismatch {S : Type} (p : Pool S) (cl : Client S)
    (sc c : Config) (conn : Nat → Except GoError S) (jit : Nat → ℚ)
    (hcl : p.client = some cl) (hsc : p.config = some sc)
    (hne : ¬(sc.baseURL = c.baseURL ∧ sc.username = c.username ∧
      sc.password = c.password)) :
    (p.GetOrCreate c conn jit).result =
      .error (GoError.base
        ("connection pool config mismatch: existing connection uses different credentials (URL: " ++
          sc.baseURL ++ " vs " ++ c.baseURL ++ ")")) ∧
    (p.GetOrCreate c conn jit).state = p ∧
    (p.GetOrCreate c conn jit).attempts = 0 ∧
    (p.GetOrCreate c conn jit).sleeps = [] := by
  have hm : ¬(p.configMatches c = true) := by
    simp [Pool.configMatches, hsc]
    tauto
  simp [Pool.GetOrCreate, hcl, hsc, hm]

/-- C4 at a concrete input: stored endpoint http://a, requested endpoint
http://b: the mismatch error names both and the state is untouched. -/
theorem claim_C4_witness :
    (Pool.GetOrCreate
        (⟨some ⟨some 5⟩, some ⟨"http://a", "u", "p", false⟩, 1⟩ : Pool Nat)
        ⟨"http://b", "u", "p", false⟩
        (fun _ => .error (.base "unused")) (fun _ => 1)).result =
      .error (GoError.base
        ("connection pool config mismatch: existing connection uses different credentials (URL: " ++
          "http://a" ++ " vs " ++ "http://b" ++ ")")) ∧
    (Pool.GetOrCreate
        (⟨some ⟨some 5⟩, some ⟨"http://a", "u", "p", false⟩, 1⟩ : Pool Nat)
        ⟨"http://b", "u", "p", false⟩
        (fun _ => .error (.base "unused")) (fun _ => 1)).state =
      ⟨some ⟨some 5⟩, some ⟨"http://a", "u", "p", false⟩, 1⟩ ∧
    (Pool.GetOrCreate
        (⟨some ⟨some 5⟩, some ⟨"http://a", "u", "p", false⟩, 1⟩ : Pool Nat)
        ⟨"http://b", "u", "p", false⟩
        (fun _ => .error (.base "unused")) (fun _ => 1)).attempts = 0 ∧
    (Pool.GetOrCreate
        (⟨some ⟨some 5⟩, some ⟨"http://a", "u", "p", false⟩, 1⟩ : Pool Nat)
        ⟨"http://b", "u", "p", false⟩
        (fun _ => .error (.base "unused")) (fun _ => 1)).sleeps = [] :=
  claim_C4_pool_mismatch
    (⟨some ⟨some 5⟩, some ⟨"http://a", "u", "p", false⟩, 1⟩ : Pool Nat)
    ⟨some 5⟩ ⟨"http://a", "u", "p", false⟩ ⟨"http://b", "u", "p", false⟩
    (fun _ => .error (.base "unused")) (fun _ => 1) rfl rfl
    (fun h => by simp at h)

/-- C5: `New` on a config with an empty base URL fails at once with the
config error, leaves the pool state untouched, performs zero connect
attempts and zero sleeps, and this holds for every environment value and
pooling flag. -/
theorem claim_C5_empty_endpoint {S : Type} (c : Config) (env : String)
    (p : Pool S) (conn : Nat → Except GoError S) (jit : Nat → ℚ)
    (h : c.baseURL = "") :
    New c env p conn jit =
      ⟨.error (.base "base URL is required"), p, 0, [], false⟩ := by
  simp [New, h]

/-- C5 at a concrete input: empty endpoint with the pooling flag set and
the environment variable set to "true": still the immediate config error
with no attempt and no sleep. -/
theorem claim_C5_witness :
    New ⟨"", "u", "p", true⟩ "true" (⟨none, none, 0⟩ : Pool Nat)
        (fun _ => .ok 3) (fun _ => 1) =
      ⟨.error (.base "base URL is required"), ⟨none, none, 0⟩, 0, [], false⟩ :=
  claim_C5_empty_endpoint ⟨"", "u", "p", true⟩ "true" ⟨none, none, 0⟩
    (fun _ => .ok 3) (fun _ => 1) rfl

/-- C6: `Pool.Close` on an empty slot is a no-op returning nil with no
disconnect call; on a held slot (whatever the refcount) it calls the
transport disconnect exactly once on the held session, resets the slot to
empty (client, config and refcount all cleared), and returns the disconnect
stub's result; and an acquire on the reset slot delegates to the factory,
which makes at least one fresh connect attempt. -/
theorem claim_C6_force_close {S : Type} (p : Pool S)
    (disc : S → Option GoError) :
    (p.client = none → p.Close disc = ⟨none, p, 0⟩) ∧
    (∀ cl s, p.client = some cl → cl.Kuma = some s →
      p.Close disc = ⟨disc s, ⟨none, none, 0⟩, 1⟩) ∧
    (∀ (c : Config) (conn : Nat → Except GoError S) (jit : Nat → ℚ),
      (Pool.GetOrCreate ⟨none, none, 0⟩ c conn jit).attempts =
        (newClientDirect conn jit).attempts ∧
      1 ≤ (Pool.GetOrCreate ⟨none, none, 0⟩ c conn jit).attempts) := by
  refine ⟨?_, ?_, ?_⟩
  · intro h
    simp [Pool.Close, h]
  · intro cl s hcl hk
    simp [Pool.Close, hcl, Client.Disconnect, hk]
  · intro c conn jit
    have hatt : (Pool.GetOrCreate (⟨none, none, 0⟩ : Pool S) c conn jit).attempts =
        (newClientDirect conn jit).attempts := by
      rcases hf : (newClientDirect conn jit).result with e | cl <;>
        simp [Pool.GetOrCreate, hf]
    refine ⟨hatt, ?_⟩
    rw [hatt]
    exact newClientDirectGen_attempts_pos 5 5 conn jit

/-- C6 at concrete inputs: closing a held slot with refcount 2 disconnects
the held session 3 once, resets the slot and returns nil; closing the empty
slot is a no-op returning nil with no disconnect call. -/
theorem claim_C6_witness :
    Pool.Close (⟨some ⟨some 3⟩, some ⟨"http://a", "u", "p", false⟩, 2⟩ : Pool Nat)
        (fun _ => none) = ⟨none, ⟨none, none, 0⟩, 1⟩ ∧
    Pool.Close (⟨none, none, 0⟩ : Pool Nat) (fun _ => none) =
      ⟨none, ⟨none, none, 0⟩, 0⟩ :=
  ⟨(claim_C6_force_close
      (⟨some ⟨some 3⟩, some ⟨"http://a", "u", "p", false⟩, 2⟩ : Pool Nat)
      (fun _ => none)).2.1 ⟨some 3⟩ 3 rfl rfl,
   (claim_C6_force_close (⟨none, none, 0⟩ : Pool Nat) (fun _ => none)).1 rfl⟩

/-- The refcount of every reachable pool state is nonnegative: it starts at
0, acquiring increments it or sets it to 1, releasing only decrements a
positive count, and closing resets it to 0. -/
lemma Pool.Reachable.refs_nonneg {S : Type} {p : Pool S}
    (h : p.Reachable) : 0 ≤ p.refs := by
  induction h with
  | init => simp
  | acquire p c conn jit _ ih =>
    rcases hc : p.client with _ | cl
    · rcases hf : (newClientDirect conn jit).result with e | cl'
      · simpa [Pool.GetOrCreate, hc, hf] using ih
      · simp [Pool.GetOrCreate, hc, hf]
    · by_cases hm : p.configMatches c
      · have : (p.GetOrCreate c conn jit).state.refs = p.refs + 1 := by
          simp [Pool.GetOrCreate, hc, hm]
        rw [this]
        omega
      · simpa [Pool.GetOrCreate, hc, hm] using ih
  | release p _ ih =>
    rw [Pool.Release]
    split
    · next hpos =>
        show (0 : Int) ≤ p.refs - 1
        omega
    · exact ih
  | close p disc _ ih =>
    rcases hc : p.client with _ | cl
    · simpa [Pool.Close, hc] using ih
    · simp [Pool.Close, hc]

/-- C7: in every reachable pool state the refcount is nonnegative, and
`Pool.Release` leaves the stored client and config untouched (it takes no
disconnect stub, so it structurally cannot close the session), decrements
the refcount by exactly one when it is positive, is a no-op when it is
zero, and never makes the refcount negative. -/
theorem claim_C7_release_no_underflow {S : Type} (p : Pool S)
    (h : p.Reachable) :
    0 ≤ p.refs ∧
    p.Release.client = p.client ∧
    p.Release.config = p.config ∧
    (0 < p.refs → p.Release.refs = p.refs - 1) ∧
    (p.refs = 0 → p.Release.refs = 0) ∧
    0 ≤ p.Release.refs := by
  have inv := h.refs_nonneg
  refine ⟨inv, ?_, ?_, ?_, ?_, ?_⟩
  · rw [Pool.Release]
    split <;> rfl
  · rw [Pool.Release]
    split <;> rfl
  · intro hp
    rw [Pool.Release, if_pos hp]
  · intro hp
    rw [Pool.Release, if_neg (by omega)]
    exact hp
  · rw [Pool.Release]
    split
    · next hpos =>
        show (0 : Int) ≤ p.refs - 1
        omega
    · exact inv

/-- C7 at a concrete input: the initial (reachable) empty state with
refcount 0: releasing is a no-op and the refcount stays 0. -/
theorem claim_C7_witness :
    0 ≤ (⟨none, none, 0⟩ : Pool Nat).refs ∧
    (⟨none, none, 0⟩ : Pool Nat).Release.client = none ∧
    (⟨none, none, 0⟩ : Pool Nat).Release.config = none ∧
    (0 < (⟨none, none, 0⟩ : Pool Nat).refs →
      (⟨none, none, 0⟩ : Pool Nat).Release.refs =
        (⟨none, none, 0⟩ : Pool Nat).refs - 1) ∧
    ((⟨none, none, 0⟩ : Pool Nat).refs = 0 →
      (⟨none, none, 0⟩ : Pool Nat).Release.refs = 0) ∧
    0 ≤ (⟨none, none, 0⟩ : Pool Nat).Release.refs :=
  claim_C7_release_no_underflow (⟨none, none, 0⟩ : Pool Nat)
    Pool.Reachable.init

/-- C8: `Pool.GetOrCreate` on the empty slot delegates to the factory
(`newClientDirect`), passing its attempts and sleeps through. When the
factory fails, the returned error wraps the factory's terminal error (which
thus stays in the cause chain) and the slot stays empty; when the factory
succeeds, the slot is populated with the returned client, the requested
config, and refcount exactly 1, and that client is returned. -/
theorem claim_C8_pool_create {S : Type} (c : Config)
    (conn : Nat → Except GoError S) (jit : Nat → ℚ) :
    (∀ e, (newClientDirect conn jit).result = .error e →
      (Pool.GetOrCreate ⟨none, none, 0⟩ c conn jit).result =
        .error (GoError.wrap "failed to create pooled connection" e) ∧
      (GoError.wrap "failed to create pooled connection" e).containsErr e =
        true ∧
      (Pool.GetOrCreate ⟨none, none, 0⟩ c conn jit).state =
        ⟨none, none, 0⟩) ∧
    (∀ cl, (newClientDirect conn jit).result = .ok cl →
      (Pool.GetOrCreate ⟨none, none, 0⟩ c conn jit).result = .ok cl ∧
      (Pool.GetOrCreate ⟨none, none, 0⟩ c conn jit).state =
        ⟨some cl, some c, 1⟩) ∧
    (Pool.GetOrCreate ⟨none, none, 0⟩ c conn jit).attempts =
      (newClientDirect conn jit).attempts ∧
    (Pool.GetOrCreate ⟨none, none, 0⟩ c conn jit).sleeps =
      (newClientDirect conn jit).sleeps := by
  refine ⟨?_, ?_, ?_, ?_⟩
  · intro e hf
    refine ⟨?_, ?_, ?_⟩
    · simp [Pool.GetOrCreate, hf]
    · simp [GoError.containsErr, GoError.containsErr_self]
    · simp [Pool.GetOrCreate, hf]
  · intro cl hf
    constructor <;> simp [Pool.GetOrCreate, hf]
  · rcases hf : (newClientDirect conn jit).result with e | cl <;>
      simp [Pool.GetOrCreate, hf]
  · rcases hf : (newClientDirect conn jit).result with e | cl <;>
      simp [Pool.GetOrCreate, hf]

/-- C8 at a concrete input: a stub that always fails: after the factory's
6 attempts the pool returns the wrapping error around the factory's
terminal error and the slot stays empty. -/
theorem claim_C8_witness :
    (Pool.GetOrCreate (⟨none, none, 0⟩ : Pool Nat)
        ⟨"http://a", "u", "p", false⟩
        (fun _ => .error (.base "boom")) (fun _ => 1)).result =
      .error (GoError.wrap "failed to create pooled connection"
        (GoError.wrap "failed to connect to Uptime Kuma after 6 attempts"
          (GoError.base "boom"))) ∧
    (Pool.GetOrCreate (⟨none, none, 0⟩ : Pool Nat)
        ⟨"http://a", "u", "p", false⟩
        (fun _ => .error (.base "boom")) (fun _ => 1)).state =
      ⟨none, none, 0⟩ := by
  have h := (claim_C8_pool_create (S := Nat) ⟨"http://a", "u", "p", false⟩
      (fun _ => .error (.base "boom")) (fun _ => 1)).1
    (GoError.wrap "failed to connect to Uptime Kuma after 6 attempts"
      (GoError.base "boom")) (by rfl)
  exact ⟨h.1, h.2.2⟩

/-- C9: the pooling decision of `New`: the explicit config flag forces
pooling on; with the flag unset, pooling is on exactly when the environment
variable is the literal string "true" (any other value, "TRUE" or "1"
included, leaves it off); and whenever the base URL is nonempty, `New`
takes the pooled path exactly when this decision is true. -/
theorem claim_C9_pooling_decision {S : Type} (c : Config) (env : String)
    (p : Pool S) (conn : Nat → Except GoError S) (jit : Nat → ℚ) :
    (c.enableConnectionPool = true → poolEnabledOf c env = true) ∧
    (c.enableConnectionPool = false →
      (poolEnabledOf c env = true ↔ env = "true")) ∧
    (¬(c.baseURL = "") →
      (New c env p conn jit).usedPool = poolEnabledOf c env) := by
  refine ⟨?_, ?_, ?_⟩
  · intro h
    simp [poolEnabledOf, h]
  · intro h
    simp [poolEnabledOf, h]
  · intro h
    rcases hb : poolEnabledOf c env <;> simp [New, h, hb]

/-- C9 at a concrete input: flag unset and environment value "TRUE": the
decision is off (only the exact string "true" enables it), and `New` on a
nonempty endpoint takes the direct path accordingly. -/
theorem claim_C9_witness :
    ((⟨"http://x", "u", "p", false⟩ : Config).enableConnectionPool = true →
      poolEnabledOf ⟨"http://x", "u", "p", false⟩ "TRUE" = true) ∧
    ((⟨"http://x", "u", "p", false⟩ : Config).enableConnectionPool = false →
      (poolEnabledOf ⟨"http://x", "u", "p", false⟩ "TRUE" = true ↔
        "TRUE" = "true")) ∧
    (¬((⟨"http://x", "u", "p", false⟩ : Config).baseURL = "") →
      (New ⟨"http://x", "u", "p", false⟩ "TRUE" (⟨none, none, 0⟩ : Pool Nat)
        (fun _ => .ok 3) (fun _ => 1)).usedPool =
      poolEnabledOf ⟨"http://x", "u", "p", false⟩ "TRUE") :=
  claim_C9_pooling_decision ⟨"http://x", "u", "p", false⟩ "TRUE"
    (⟨none, none, 0⟩ : Pool Nat) (fun _ => .ok 3) (fun _ => 1)

/-- C10: `Client.Disconnect` is total: on a client whose handle is nil it
returns nil without calling the transport disconnect, and on a client with
a live handle it returns exactly the transport disconnect's result, calling
it exactly once. -/
theorem claim_C10_disconnect_total {S : Type} (c : Client S)
    (disc : S → Option GoError) :
    (c.Kuma = none → c.Disconnect disc = (none, 0)) ∧
    (∀ s, c.Kuma = some s → c.Disconnect disc = (disc s, 1)) := by
  constructor
  · intro h
    simp [Client.Disconnect, h]
  · intro s h
    simp [Client.Disconnect, h]

/-- C10 at concrete inputs: a never-connected client disconnects as a no-op
returning nil; a connected client returns the transport stub's error with
one transport call. -/
theorem claim_C10_witness :
    Client.Disconnect (⟨none⟩ : Client Nat) (fun _ => some (.base "eof")) =
      (none, 0) ∧
    Client.Disconnect (⟨some 3⟩ : Client Nat) (fun _ => some (.base "eof")) =
      (some (.base "eof"), 1) :=
  ⟨(claim_C10_disconnect_total (⟨none⟩ : Client Nat)
      (fun _ => some (.base "eof"))).1 rfl,
   (claim_C10_disconnect_total (⟨some 3⟩ : Client Nat)
      (fun _ => some (.base "eof"))).2 3 rfl⟩
